import Mathlib

/-!
Shallow embedding of the libgpiod-node-wrapper native core
(src/native/chip.cpp, line_config.cpp, line_request.cpp, line.cpp).

Conventions of the embedding:
* Napi exceptions are modelled as an `ErrKind` value returned next to the
  mutated state: `Napi::TypeError` is `validationError`, the fixed
  lifecycle-state messages ("Chip is closed", "Line request is not active",
  "Line is not exported") are `stateError`, and errors wrapped around a
  caught device exception ("Failed to ...") are `deviceError`, following
  the error taxonomy the wrapper exposes.
* The underlying libgpiod device is an external collaborator; calls into it
  are modelled by explicit result parameters, and where the claim depends
  on device behaviour the device is modelled from the spec (see the doc
  comments of the `dev*` definitions).
* `std::map` (used both by `LineConfig::settings_map_` and by
  `gpiod::line_config::get_line_settings`) is modelled as an association
  list kept sorted by key in strictly ascending order, so that the list
  head corresponds to `begin()` of the C++ map.
-/

/-- Error classes of the wrapper: `Napi::TypeError` (malformed input),
lifecycle-state errors, and wrapped device failures. -/
inductive ErrKind where
  | validationError
  | stateError
  | deviceError
deriving DecidableEq, Repr

/-! ## Chip (chip.cpp)

`Chip` holds `chip_ : std::shared_ptr<gpiod::chip>`; every method first
checks `if (!chip_)`. We model the wrapper state as the single fact of
whether `chip_` is non-null, and the device queries by explicit result
parameters (every query is a fresh device read). -/

/-- State of a `Chip` wrapper object: whether `chip_` is non-null. -/
structure ChipState where
  isOpen : Bool
deriving DecidableEq, Repr

namespace Chip

/-- `Chip::Close` (chip.cpp:70-85): if `chip_` is null, return undefined
(no error); otherwise reset the pointer. Returns the new state and the
error raised, if any. -/
def close (st : ChipState) : ChipState × Option ErrKind :=
  if !st.isOpen then (st, none)
  else ({ isOpen := false }, none)

/-- `Chip::GetNumLines` (chip.cpp:51-68): "Chip is closed" error if
`chip_` is null, else a fresh `get_info().num_lines()` device read,
modelled by the `devLines` parameter ( `devFail` models the catch). -/
def getNumLines (st : ChipState) (devLines : Nat) (devFail : Bool) :
    Option Nat × Option ErrKind :=
  if !st.isOpen then (none, some .stateError)
  else if devFail then (none, some .deviceError)
  else (some devLines, none)

/-- `Chip::GetLabel` (chip.cpp:145-164): same closed-check then fresh
`get_info().label()` read. -/
def getLabel (st : ChipState) (devLabel : String) (devFail : Bool) :
    Option String × Option ErrKind :=
  if !st.isOpen then (none, some .stateError)
  else if devFail then (none, some .deviceError)
  else (some devLabel, none)

/-- Line metadata returned by `Chip::GetLineInfo`. -/
structure LineInfoResult where
  name : String
  used : Bool
  direction : String
  activeLow : Bool
  consumer : String
deriving DecidableEq, Repr

/-- `Chip::GetLineInfo` (chip.cpp:91-143): closed-check first (before the
argument check), then a fresh `get_line_info(offset)` device read,
modelled by `devInfo` (`none` models the device throwing, e.g. an invalid
offset). The empty consumer string is replaced by `"unused"`. -/
def getLineInfo (st : ChipState) (devInfo : Option LineInfoResult) :
    Option LineInfoResult × Option ErrKind :=
  if !st.isOpen then (none, some .stateError)
  else
    match devInfo with
    | none => (none, some .deviceError)
    | some i =>
        (some { i with consumer := if i.consumer = "" then "unused" else i.consumer }, none)

end Chip

/-! ## RequestHandle (line_request.cpp)

The dynamic state of a `LineRequest` wrapper relevant to `getValue` /
`setValue` / `release` is whether `request_` is non-null (live). The
underlying `gpiod::line_request` calls are modelled by explicit device
results. -/

namespace LineRequest

/-- `LineRequest::Release` (line_request.cpp:170-185): if `request_` is
non-null, reset it; otherwise fall through and return undefined. Either
way the handle ends up not live and no error is raised. -/
def release (live : Bool) : Bool × Option ErrKind :=
  if live then (false, none)
  else (false, none)

/-- `LineRequest::GetValue` (line_request.cpp:118-141): "Line request is
not active" when `request_` is null, else `request_->get_value(offset)`
modelled by `devResult` (the catch wraps any device exception). -/
def getValue (live : Bool) (devResult : Except String Nat) :
    Option Nat × Option ErrKind :=
  if !live then (none, some .stateError)
  else
    match devResult with
    | .ok v => (some v, none)
    | .error _ => (none, some .deviceError)

/-- `LineRequest::SetValue` (line_request.cpp:143-168): "Line request is
not active" when `request_` is null, else `request_->set_value(offset,
value)` modelled by `devResult`; any device exception is wrapped as
"Failed to set value". -/
def setValue (live : Bool) (devResult : Except String Unit) : Option ErrKind :=
  if !live then some .stateError
  else
    match devResult with
    | .ok _ => none
    | .error _ => some .deviceError

end LineRequest

/-- Modelled from the spec: the external device service (spec §1, §6)
behind `gpiod::line_request::set_value`. Writing an offset that is not
configured as an output is rejected by the device (it is not part of this
repository's code); an I/O failure may also occur. -/
def devSetValue (outputOffsets : List Nat) (offset : Nat) (ioFail : Bool) :
    Except String Unit :=
  if offset ∈ outputOffsets then
    if ioFail then .error "device failure" else .ok ()
  else .error "offset not configured as output"

/-! ## LineConfig (line_config.cpp)

Per-offset settings with the defaults of `gpiod::line_settings`
(direction `AS_IS`, edge `NONE`, bias `AS_IS`, drive `PUSH_PULL`,
active-low false, debounce 0, output value `INACTIVE`). -/

/-- `gpiod::line::direction` as used by the wrapper. -/
inductive GDirection where
  | asIs
  | input
  | output
deriving DecidableEq, Repr

/-- `gpiod::line::edge`. -/
inductive GEdge where
  | none
  | rising
  | falling
  | both
deriving DecidableEq, Repr

/-- `gpiod::line::drive`. -/
inductive GDrive where
  | pushPull
  | openDrain
  | openSource
deriving DecidableEq, Repr

/-- `gpiod::line::bias`. -/
inductive GBias where
  | asIs
  | unknown
  | disabled
  | pullUp
  | pullDown
deriving DecidableEq, Repr

/-- One `gpiod::line_settings` object, with its default-constructed values. -/
structure LineSettings where
  direction : GDirection := .asIs
  edgeDetection : GEdge := .none
  drive : GDrive := .pushPull
  bias : GBias := .asIs
  activeLow : Bool := false
  outputValue : Bool := false
  debouncePeriodUs : Nat := 0
deriving DecidableEq, Repr

/-- Default-constructed `gpiod::line_settings`. -/
def LineSettings.defaults : LineSettings := {}

/-- Lookup in the settings map (`std::map::find`). -/
def mapFind (m : List (Nat × LineSettings)) (k : Nat) : Option LineSettings :=
  match m with
  | [] => none
  | (k', s) :: rest => if k = k' then some s else mapFind rest k

/-- Insert-or-replace in the key-sorted association list modelling
`std::map` (so the head of the list is `begin()`, the least key). -/
def mapInsert (m : List (Nat × LineSettings)) (k : Nat) (s : LineSettings) :
    List (Nat × LineSettings) :=
  match m with
  | [] => [(k, s)]
  | (k', s') :: rest =>
      if k < k' then (k, s) :: (k', s') :: rest
      else if k = k' then (k, s) :: rest
      else (k', s') :: mapInsert rest k s

/-- State of a `LineConfig` wrapper: the current-offset cursor (default 0,
line_config.h) and the per-offset settings map. `settings_map_` and the
`gpiod::line_config` view returned by `get_line_settings()` hold the same
mapping, since every creation and every mutation re-adds the entry, so one
map models both. `insOrder` is a specification-only ghost field recording
the order in which offsets were first configured; the C++ `std::map` does
not retain it and no code path reads it. -/
structure ConfigState where
  currentOffset : Nat := 0
  settingsMap : List (Nat × LineSettings) := []
  insOrder : List Nat := []
deriving DecidableEq, Repr

/-- Freshly constructed `LineConfig` (line_config.cpp:26-31). -/
def ConfigState.init : ConfigState := {}

namespace LineConfig

/-- `LineConfig::EnsureSettingsForCurrentOffset` (line_config.cpp:38-53):
return the existing entry for the current offset, or create a
default-constructed one, store it in `settings_map_` and add it to the
`gpiod::line_config`. -/
def ensureSettingsForCurrentOffset (st : ConfigState) :
    ConfigState × LineSettings :=
  match mapFind st.settingsMap st.currentOffset with
  | some s => (st, s)
  | none =>
      let s := LineSettings.defaults
      ({ st with
          settingsMap := mapInsert st.settingsMap st.currentOffset s
          insOrder := st.insOrder ++ [st.currentOffset] }, s)

/-- Store mutated settings for the current offset (the C++ mutates the
shared `line_settings` object and re-adds it to the config). -/
def putCurrent (st : ConfigState) (s : LineSettings) : ConfigState :=
  { st with settingsMap := mapInsert st.settingsMap st.currentOffset s }

/-- `LineConfig::SetOffset` (line_config.cpp:55-75): move the cursor and
ensure a settings entry exists for it. -/
def setOffset (st : ConfigState) (k : Nat) : ConfigState :=
  (ensureSettingsForCurrentOffset { st with currentOffset := k }).1

/-- String parsing in `LineConfig::SetDirection` (line_config.cpp:93-100). -/
def parseDirection (s : String) : Option GDirection :=
  if s = "input" then some .input
  else if s = "output" then some .output
  else none

/-- String parsing in `LineConfig::SetEdge` (line_config.cpp:128-139). -/
def parseEdge (s : String) : Option GEdge :=
  if s = "none" then some .none
  else if s = "rising" then some .rising
  else if s = "falling" then some .falling
  else if s = "both" then some .both
  else none

/-- String parsing in `LineConfig::SetDrive` (line_config.cpp:167-176). -/
def parseDrive (s : String) : Option GDrive :=
  if s = "push_pull" then some .pushPull
  else if s = "open_drain" then some .openDrain
  else if s = "open_source" then some .openSource
  else none

/-- String parsing in `LineConfig::SetBias` (line_config.cpp:204-215). -/
def parseBias (s : String) : Option GBias :=
  if s = "unknown" then some .unknown
  else if s = "disabled" then some .disabled
  else if s = "pull_up" then some .pullUp
  else if s = "pull_down" then some .pullDown
  else none

/-- `LineConfig::SetDirection` (line_config.cpp:77-110): ensure settings
for the current offset FIRST, then validate the string (TypeError on an
unrecognized one), then mutate and re-add. -/
def setDirection (st : ConfigState) (s : String) :
    ConfigState × Option ErrKind :=
  let es := ensureSettingsForCurrentOffset st
  match parseDirection s with
  | none => (es.1, some .validationError)
  | some d => (putCurrent es.1 { es.2 with direction := d }, none)

/-- `LineConfig::SetEdge` (line_config.cpp:112-149), same shape. -/
def setEdge (st : ConfigState) (s : String) : ConfigState × Option ErrKind :=
  let es := ensureSettingsForCurrentOffset st
  match parseEdge s with
  | none => (es.1, some .validationError)
  | some e => (putCurrent es.1 { es.2 with edgeDetection := e }, none)

/-- `LineConfig::SetDrive` (line_config.cpp:151-186), same shape. -/
def setDrive (st : ConfigState) (s : String) : ConfigState × Option ErrKind :=
  let es := ensureSettingsForCurrentOffset st
  match parseDrive s with
  | none => (es.1, some .validationError)
  | some d => (putCurrent es.1 { es.2 with drive := d }, none)

/-- `LineConfig::SetBias` (line_config.cpp:188-225), same shape. -/
def setBias (st : ConfigState) (s : String) : ConfigState × Option ErrKind :=
  let es := ensureSettingsForCurrentOffset st
  match parseBias s with
  | none => (es.1, some .validationError)
  | some b => (putCurrent es.1 { es.2 with bias := b }, none)

/-- `LineConfig::SetActiveLow` (line_config.cpp:227-253): boolean, no
string validation. -/
def setActiveLow (st : ConfigState) (b : Bool) : ConfigState :=
  let es := ensureSettingsForCurrentOffset st
  putCurrent es.1 { es.2 with activeLow := b }

/-- `LineConfig::SetOutputValue` (line_config.cpp:255-281). -/
def setOutputValue (st : ConfigState) (b : Bool) : ConfigState :=
  let es := ensureSettingsForCurrentOffset st
  putCurrent es.1 { es.2 with outputValue := b }

/-- `LineConfig::SetDebouncePeriod` (line_config.cpp:283-309). -/
def setDebouncePeriod (st : ConfigState) (us : Nat) : ConfigState :=
  let es := ensureSettingsForCurrentOffset st
  putCurrent es.1 { es.2 with debouncePeriodUs := us }

end LineConfig

/-- A call into the `LineConfig` wrapper, for stating trace properties. -/
inductive ConfigOp where
  | selOffset (k : Nat)
  | direction (s : String)
  | edgeDetection (s : String)
  | drive (s : String)
  | bias (s : String)
  | activeLow (b : Bool)
  | outputValue (b : Bool)
  | debounce (us : Nat)
deriving DecidableEq, Repr

/-- Apply one wrapper call (the error, if any, is discarded here; the
per-call error behaviour is stated separately). -/
def applyConfigOp (st : ConfigState) : ConfigOp → ConfigState
  | .selOffset k => LineConfig.setOffset st k
  | .direction s => (LineConfig.setDirection st s).1
  | .edgeDetection s => (LineConfig.setEdge st s).1
  | .drive s => (LineConfig.setDrive st s).1
  | .bias s => (LineConfig.setBias st s).1
  | .activeLow b => LineConfig.setActiveLow st b
  | .outputValue b => LineConfig.setOutputValue st b
  | .debounce us => LineConfig.setDebouncePeriod st us

/-- Run a sequence of wrapper calls from the fresh `LineConfig`. -/
def runConfig (ops : List ConfigOp) : ConfigState :=
  ops.foldl applyConfigOp ConfigState.init

/-! ## Request building (LineRequest constructor, line_request.cpp:57-105)

The constructor reads `config_->GetConfig()->get_line_settings()` — a
`std::map<offset, line_settings>`, here the key-sorted `settingsMap` — and
resolves settings for each requested offset. -/

/-- Per-offset resolution (line_request.cpp:79-97): exact entry, else the
entry for offset 0, else `settings_map.begin()->second`, i.e. the head of
the key-sorted map. (The outer branch guarantees the map is non-empty;
the `defaults` fallback for an empty map is dead code kept total.) -/
def resolveOne (m : List (Nat × LineSettings)) (o : Nat) : LineSettings :=
  match mapFind m o with
  | some s => s
  | none =>
      match mapFind m 0 with
      | some s0 => s0
      | none => (m.head?.elim LineSettings.defaults Prod.snd)

/-- The whole resolution loop (line_request.cpp:68-98): if the settings
map is empty, every requested offset gets default-constructed settings;
otherwise each offset, in request order, gets `resolveOne`. -/
def resolveSettings (m : List (Nat × LineSettings)) (offsets : List Nat) :
    List (Nat × LineSettings) :=
  if m.isEmpty then offsets.map (fun o => (o, LineSettings.defaults))
  else offsets.map (fun o => (o, resolveOne m o))

/-- The fallback policy in the words of the claim: exact entry, else the
entry for offset 0, else the settings of the offset that was configured
FIRST (insertion order, the ghost `insOrder`). Written from the spec for
comparison against `resolveOne`, which follows the source. -/
def resolveOneClaimed (st : ConfigState) (o : Nat) : LineSettings :=
  match mapFind st.settingsMap o with
  | some s => s
  | none =>
      match mapFind st.settingsMap 0 with
      | some s0 => s0
      | none =>
          ((st.insOrder.head?.bind (mapFind st.settingsMap)).getD
            LineSettings.defaults)

/-! ## Line facade (line.cpp)

State of a `Line` wrapper: the exported flag, the bound `LineRequest`
(identified by a tag), and the watching flag. The thread/tsfn resources
behind `watching_` are modelled separately for the concurrency claims. -/

/-- Observable state of a `Line` object (line.h): `exported_`, `request_`
(as an optional tag of the bound `LineRequest`), `watching_`. -/
structure LineState where
  exported : Bool := false
  request? : Option Nat := none
  watching : Bool := false
deriving DecidableEq, Repr

namespace Line

/-- `Line::StopWatchThread` (line.cpp:242-253): if watching, clear the
flag, join the thread and release the tsfn; otherwise do nothing. The
state effect is clearing `watching_`. -/
def stopWatchThread (st : LineState) : LineState :=
  if st.watching then { st with watching := false } else st

/-- `Line::Watch` (line.cpp:145-182): "Line is not exported" error when
`!exported_ || !request_`; otherwise stop any existing watch thread, then
create the tsfn, set `watching_ = true` and start a new thread. -/
def watch (st : LineState) : LineState × Option ErrKind :=
  if !st.exported || st.request?.isNone then (st, some .stateError)
  else ({ stopWatchThread st with watching := true }, none)

/-- `Line::Export` (line.cpp:103-129): if already exported, drop the old
request and clear the flag; then bind the new request and set the flag.
`watching_` is not touched and `StopWatchThread` is not called. -/
def exportReq (st : LineState) (r : Nat) : LineState :=
  let st1 := if st.exported then { st with request? := none, exported := false } else st
  { st1 with request? := some r, exported := true }

/-- `Line::Unexport` (line.cpp:131-143): stop the watch thread first, then
unbind the request if exported. -/
def unexport (st : LineState) : LineState :=
  let st1 := stopWatchThread st
  if st1.exported then { st1 with request? := none, exported := false } else st1

/-- `Line::Unwatch` (line.cpp:184-191): just `StopWatchThread`. -/
def unwatch (st : LineState) : LineState :=
  stopWatchThread st

/-- `Line::~Line` (line.cpp:46-57): stop the watch thread, then drop the
request if exported. -/
def destroy (st : LineState) : LineState :=
  let st1 := stopWatchThread st
  if st1.exported then { st1 with request? := none, exported := false } else st1

end Line

/-! ## Watcher loop, sequential model (Line::WatchThread, line.cpp:193-240)

With no concurrent `stop`, `watching_` stays true until the error path
clears it. Each loop iteration consumes one device outcome: a wait
timeout, one edge event, or an exception raised by the wait/read. -/

/-- Outcome of one iteration's device interaction. -/
inductive DevOutcome where
  | timeout
  | edge (rising : Bool)
  | raiseErr (msg : String)
deriving DecidableEq, Repr

/-- One callback invocation made through the tsfn: `(null, value)` for an
edge event, `(error, null)` for an error. -/
inductive Delivery where
  | value (v : Nat)
  | errMsg (msg : String)
deriving DecidableEq, Repr

/-- `Line::WatchThread`'s loop (line.cpp:204-236), sequential model:
consume outcomes while `watching_` holds; an edge event is classified
rising=1 / falling=0 and delivered; an exception is delivered once via
the error callback and then `watching_ = false`, so the loop exits and the
remaining outcomes are never consumed. Returns the deliveries made and
the final value of `watching_`. -/
def watchLoop : List DevOutcome → List Delivery × Bool
  | [] => ([], true)
  | o :: rest =>
      match o with
      | .timeout => watchLoop rest
      | .edge r =>
          let p := watchLoop rest
          (Delivery.value (if r then 1 else 0) :: p.1, p.2)
      | .raiseErr m => ([Delivery.errMsg m], false)

/-- The event deliveries produced by an error-free outcome list. -/
def eventDeliveries (outs : List DevOutcome) : List Delivery :=
  outs.filterMap (fun o =>
    match o with
    | .edge r => some (Delivery.value (if r then 1 else 0))
    | _ => none)

/-- Whether a delivery is an error notification. -/
def isErrDelivery : Delivery → Bool
  | .errMsg _ => true
  | .value _ => false

/-- Whether a device outcome is an exception. -/
def isRaise : DevOutcome → Bool
  | .raiseErr _ => true
  | _ => false

/-! ## Watcher/stop interleaving (Line::WatchThread + Line::StopWatchThread)

A small-step interleaving model of one watch session: the watch thread
runs the loop of line.cpp:204-236 while the caller's context may invoke
`StopWatchThread` (line.cpp:242-253) once. `tsfn_.BlockingCall` is
modelled as the delivery itself (label `deliver`). Program points of the
watch thread:
* `loopHead` — at `while (watching_)` (line 204);
* `afterWait b` — `wait_edge_events` returned `b` (line 208);
* `delivEvent` — the `watching_ && event_available` check passed, about to
  read and deliver (lines 211-221);
* `errCaught` — an exception was caught (line 223);
* `delivError` — the `if (watching_)` check passed, about to deliver the
  error (lines 224-230);
* `errClear` — error delivered, about to run `watching_ = false`
  (line 233);
* `doneW` — the loop and the function have exited.
Program points of the stopping context: `notCalled`, `flagCleared`
(`watching_ = false` done, before the join), `returned`
(`StopWatchThread` returned — via the join, or at once when `watching_`
was already false). -/

/-- Program point of the watch thread. -/
inductive WPC where
  | loopHead
  | afterWait (avail : Bool)
  | delivEvent
  | errCaught
  | delivError
  | errClear
  | doneW
deriving DecidableEq, Repr

/-- Program point of the context running `StopWatchThread`. -/
inductive SPC where
  | notCalled
  | flagCleared
  | returned
deriving DecidableEq, Repr

/-- Shared state of one watch session: the `watching_` flag and the two
program points. -/
structure WatchSys where
  watching : Bool
  wpc : WPC
  spc : SPC
deriving DecidableEq, Repr

/-- Step labels: `deliver` marks a callback invocation (event or error). -/
inductive WLabel where
  | tau
  | deliver
deriving DecidableEq, Repr

/-- The interleaved small-step relation. -/
inductive WStep : WatchSys → WLabel → WatchSys → Prop where
  | waitReturn (s : WatchSys) (b : Bool)
      (hw : s.watching = true) (hp : s.wpc = .loopHead) :
      WStep s .tau { s with wpc := .afterWait b }
  | waitRaise (s : WatchSys)
      (hw : s.watching = true) (hp : s.wpc = .loopHead) :
      WStep s .tau { s with wpc := .errCaught }
  | loopExit (s : WatchSys)
      (hw : s.watching = false) (hp : s.wpc = .loopHead) :
      WStep s .tau { s with wpc := .doneW }
  | checkPass (s : WatchSys)
      (hp : s.wpc = .afterWait true) (hw : s.watching = true) :
      WStep s .tau { s with wpc := .delivEvent }
  | checkFail (s : WatchSys) (b : Bool)
      (hp : s.wpc = .afterWait b) (h : s.watching = false ∨ b = false) :
      WStep s .tau { s with wpc := .loopHead }
  | doDeliver (s : WatchSys) (hp : s.wpc = .delivEvent) :
      WStep s .deliver { s with wpc := .loopHead }
  | errGuardPass (s : WatchSys)
      (hp : s.wpc = .errCaught) (hw : s.watching = true) :
      WStep s .tau { s with wpc := .delivError }
  | errGuardFail (s : WatchSys)
      (hp : s.wpc = .errCaught) (hw : s.watching = false) :
      WStep s .tau { s with wpc := .loopHead }
  | doDeliverErr (s : WatchSys) (hp : s.wpc = .delivError) :
      WStep s .deliver { s with wpc := .errClear }
  | clearAfterErr (s : WatchSys) (hp : s.wpc = .errClear) :
      WStep s .tau { s with wpc := .loopHead, watching := false }
  | stopFlag (s : WatchSys)
      (hs : s.spc = .notCalled) (hw : s.watching = true) :
      WStep s .tau { s with spc := .flagCleared, watching := false }
  | stopNoop (s : WatchSys)
      (hs : s.spc = .notCalled) (hw : s.watching = false) :
      WStep s .tau { s with spc := .returned }
  | stopJoin (s : WatchSys)
      (hs : s.spc = .flagCleared) (hp : s.wpc = .doneW) :
      WStep s .tau { s with spc := .returned }

/-- State right after `Line::Watch` started the thread: `watching_` true,
thread at the loop head, stop not yet called. -/
def watchInit : WatchSys := { watching := true, wpc := .loopHead, spc := .notCalled }

/-- Reachability from `watchInit`. -/
inductive WatchReach : WatchSys → Prop where
  | init : WatchReach watchInit
  | step {s s' : WatchSys} {l : WLabel} :
      WatchReach s → WStep s l s' → WatchReach s'

/-- Thread points from which no delivery can be initiated. -/
def SafeW (p : WPC) : Prop := p ≠ .delivEvent ∧ p ≠ .delivError

/-- Inductive invariant of the watch session: once the stop flag is
cleared `watching_` stays false; once stop returned, `watching_` is false
and the thread is past any delivery point; and before stop is called,
`watching_` can only be false with the thread past any delivery point
(the error self-stop path). -/
def WInv (s : WatchSys) : Prop :=
  (s.spc = .flagCleared → s.watching = false) ∧
  (s.spc = .returned → s.watching = false ∧ SafeW s.wpc) ∧
  (s.spc = .notCalled → s.watching = false → SafeW s.wpc)

/-- Key-sortedness of the association list modelling `std::map`. -/
def SortedMap (m : List (Nat × LineSettings)) : Prop :=
  m.Pairwise (fun a b => a.1 < b.1)

/-! ## Helper lemmas -/

theorem mapFind_mapInsert_self (m : List (Nat × LineSettings)) (k : Nat)
    (s : LineSettings) : mapFind (mapInsert m k s) k = some s := by
  induction m with
  | nil => simp [mapInsert, mapFind]
  | cons p rest ih =>
      obtain ⟨k', s'⟩ := p
      by_cases h1 : k < k'
      · simp [mapInsert, h1, mapFind]
      · by_cases h2 : k = k'
        · simp [mapInsert, h1, h2, mapFind]
        · simp [mapInsert, h1, h2, mapFind, ih]

theorem mapFind_mapInsert_ne (m : List (Nat × LineSettings)) (k k' : Nat)
    (s : LineSettings) (hne : k' ≠ k) :
    mapFind (mapInsert m k s) k' = mapFind m k' := by
  induction m with
  | nil => simp [mapInsert, mapFind, hne]
  | cons p rest ih =>
      obtain ⟨k0, s0⟩ := p
      by_cases h1 : k < k0
      · simp [mapInsert, h1, mapFind, hne]
      · by_cases h2 : k = k0
        · subst h2
          simp [mapInsert, h1, mapFind, hne]
        · simp [mapInsert, h1, h2, mapFind, ih]

theorem mapInsert_mem (m : List (Nat × LineSettings)) (k : Nat)
    (s : LineSettings) (p : Nat × LineSettings) (hp : p ∈ mapInsert m k s) :
    p = (k, s) ∨ p ∈ m := by
  induction m with
  | nil => simpa [mapInsert] using hp
  | cons q rest ih =>
      obtain ⟨k0, s0⟩ := q
      by_cases h1 : k < k0
      · simp only [mapInsert, if_pos h1, List.mem_cons] at hp
        rcases hp with h | h | h
        · exact Or.inl h
        · exact Or.inr (by simp [h])
        · exact Or.inr (by simp [h])
      · by_cases h2 : k = k0
        · simp only [mapInsert, if_neg h1, if_pos h2, List.mem_cons] at hp
          rcases hp with h | h
          · exact Or.inl h
          · exact Or.inr (by simp [h])
        · simp only [mapInsert, if_neg h1, if_neg h2, List.mem_cons] at hp
          rcases hp with h | h
          · exact Or.inr (by simp [h])
          · rcases ih h with h' | h'
            · exact Or.inl h'
            · exact Or.inr (by simp [h'])

theorem mapInsert_sorted (m : List (Nat × LineSettings)) (k : Nat)
    (s : LineSettings) (hm : SortedMap m) : SortedMap (mapInsert m k s) := by
  induction m with
  | nil => simp [mapInsert, SortedMap]
  | cons q rest ih =>
      obtain ⟨k0, s0⟩ := q
      rw [SortedMap, List.pairwise_cons] at hm
      obtain ⟨hall, hrest⟩ := hm
      by_cases h1 : k < k0
      · rw [SortedMap, mapInsert]
        simp only [if_pos h1]
        refine List.Pairwise.cons ?_ (List.Pairwise.cons hall hrest)
        intro p hp
        rcases List.mem_cons.mp hp with h | h
        · simp [h]; omega
        · have := hall p h
          simp at this ⊢
          omega
      · by_cases h2 : k = k0
        · subst h2
          rw [SortedMap, mapInsert]
          simp only [if_neg h1, if_pos rfl]
          exact List.Pairwise.cons hall hrest
        · rw [SortedMap, mapInsert]
          simp only [if_neg h1, if_neg h2]
          refine List.Pairwise.cons ?_ (ih hrest)
          intro p hp
          rcases mapInsert_mem rest k s p hp with h | h
          · simp [h]; omega
          · exact hall p h

theorem ensure_sorted (st : ConfigState) (hm : SortedMap st.settingsMap) :
    SortedMap (LineConfig.ensureSettingsForCurrentOffset st).1.settingsMap := by
  rw [LineConfig.ensureSettingsForCurrentOffset]
  cases h : mapFind st.settingsMap st.currentOffset with
  | some s => simpa [h]
  | none => simpa [h] using mapInsert_sorted _ _ _ hm

theorem putCurrent_sorted (st : ConfigState) (s : LineSettings)
    (hm : SortedMap st.settingsMap) :
    SortedMap (LineConfig.putCurrent st s).settingsMap := by
  simpa [LineConfig.putCurrent] using mapInsert_sorted _ _ _ hm

theorem applyConfigOp_sorted (st : ConfigState) (op : ConfigOp)
    (hm : SortedMap st.settingsMap) :
    SortedMap (applyConfigOp st op).settingsMap := by
  cases op with
  | selOffset k =>
      exact ensure_sorted { st with currentOffset := k } hm
  | direction s =>
      rw [applyConfigOp, LineConfig.setDirection]
      cases h : LineConfig.parseDirection s with
      | none => simpa [h] using ensure_sorted st hm
      | some d => simpa [h] using putCurrent_sorted _ _ (ensure_sorted st hm)
  | edgeDetection s =>
      rw [applyConfigOp, LineConfig.setEdge]
      cases h : LineConfig.parseEdge s with
      | none => simpa [h] using ensure_sorted st hm
      | some d => simpa [h] using putCurrent_sorted _ _ (ensure_sorted st hm)
  | drive s =>
      rw [applyConfigOp, LineConfig.setDrive]
      cases h : LineConfig.parseDrive s with
      | none => simpa [h] using ensure_sorted st hm
      | some d => simpa [h] using putCurrent_sorted _ _ (ensure_sorted st hm)
  | bias s =>
      rw [applyConfigOp, LineConfig.setBias]
      cases h : LineConfig.parseBias s with
      | none => simpa [h] using ensure_sorted st hm
      | some d => simpa [h] using putCurrent_sorted _ _ (ensure_sorted st hm)
  | activeLow b =>
      exact putCurrent_sorted _ _ (ensure_sorted st hm)
  | outputValue b =>
      exact putCurrent_sorted _ _ (ensure_sorted st hm)
  | debounce us =>
      exact putCurrent_sorted _ _ (ensure_sorted st hm)

theorem runConfig_sorted (ops : List ConfigOp) :
    SortedMap (runConfig ops).settingsMap := by
  rw [runConfig]
  have h : ∀ (st : ConfigState), SortedMap st.settingsMap →
      SortedMap (ops.foldl applyConfigOp st).settingsMap := by
    induction ops with
    | nil => intro st hst; simpa
    | cons op rest ih =>
        intro st hst
        exact ih _ (applyConfigOp_sorted st op hst)
  exact h ConfigState.init (by simp [ConfigState.init, SortedMap])

theorem WInv_init : WInv watchInit := by
  refine ⟨?_, ?_, ?_⟩ <;> simp [watchInit, SafeW]

theorem WInv_step {s s' : WatchSys} {l : WLabel}
    (h : WInv s) (hs : WStep s l s') : WInv s' := by
  obtain ⟨h1, h2, h3⟩ := h
  cases hs with
  | waitReturn b hw hp =>
      refine ⟨?_, ?_, ?_⟩ <;> intro hq <;> simp_all [SafeW]
  | waitRaise hw hp =>
      refine ⟨?_, ?_, ?_⟩ <;> intro hq <;> simp_all [SafeW]
  | loopExit hw hp =>
      refine ⟨?_, ?_, ?_⟩ <;> intro hq <;> simp_all [SafeW]
  | checkPass hp hw =>
      refine ⟨?_, ?_, ?_⟩ <;> intro hq <;> simp_all [SafeW]
  | checkFail b hp hb =>
      refine ⟨?_, ?_, ?_⟩ <;> intro hq <;> simp_all [SafeW]
  | doDeliver hp =>
      refine ⟨?_, ?_, ?_⟩ <;> intro hq <;> simp_all [SafeW]
  | errGuardPass hp hw =>
      refine ⟨?_, ?_, ?_⟩ <;> intro hq <;> simp_all [SafeW]
  | errGuardFail hp hw =>
      refine ⟨?_, ?_, ?_⟩ <;> intro hq <;> simp_all [SafeW]
  | doDeliverErr hp =>
      refine ⟨?_, ?_, ?_⟩ <;> intro hq <;> simp_all [SafeW]
  | clearAfterErr hp =>
      refine ⟨?_, ?_, ?_⟩ <;> intro hq <;> simp_all [SafeW]
  | stopFlag hsp hw =>
      refine ⟨?_, ?_, ?_⟩ <;> intro hq <;> simp_all [SafeW]
  | stopNoop hsp hw =>
      refine ⟨?_, ?_, ?_⟩ <;> intro hq <;> simp_all [SafeW]
  | stopJoin hsp hp =>
      refine ⟨?_, ?_, ?_⟩ <;> intro hq <;> simp_all [SafeW]

theorem WInv_reach {s : WatchSys} (h : WatchReach s) : WInv s := by
  induction h with
  | init => exact WInv_init
  | step hr hs ih => exact WInv_step ih hs

/-! ## Claim theorems -/

/-- C8: once `close()` has been called on a Chip, every subsequent query
(line count, label, per-offset line info) fails with the chip-closed
state error, and closing the already-closed chip again is a no-op that
raises no error. -/
theorem chip_close_idempotent_and_gates (st : ChipState) (n : Nat)
    (lbl : String) (info : Option Chip.LineInfoResult) (f1 f2 : Bool) :
    (Chip.close st).2 = none ∧
    (Chip.close st).1.isOpen = false ∧
    Chip.close (Chip.close st).1 = ((Chip.close st).1, none) ∧
    Chip.getNumLines (Chip.close st).1 n f1 = (none, some ErrKind.stateError) ∧
    Chip.getLabel (Chip.close st).1 lbl f2 = (none, some ErrKind.stateError) ∧
    Chip.getLineInfo (Chip.close st).1 info = (none, some ErrKind.stateError) := by
  obtain ⟨o⟩ := st
  cases o <;>
    simp [Chip.close, Chip.getNumLines, Chip.getLabel, Chip.getLineInfo]

/-- C7: after `release()` a RequestHandle is not live, so every subsequent
`getValue`/`setValue` fails with the "request not active" state error,
and a second `release()` is a no-op that raises no error. -/
theorem release_idempotent_and_invalidates (live : Bool)
    (dg : Except String Nat) (ds : Except String Unit) :
    LineRequest.release live = (false, none) ∧
    LineRequest.release (LineRequest.release live).1 = (false, none) ∧
    LineRequest.getValue (LineRequest.release live).1 dg
      = (none, some ErrKind.stateError) ∧
    LineRequest.setValue (LineRequest.release live).1 ds
      = some ErrKind.stateError := by
  cases live <;>
    simp [LineRequest.release, LineRequest.getValue, LineRequest.setValue]

/-- C6 counterexample: on a live handle, writing an offset that is not
configured as an output is rejected by the device and surfaces through
the catch as a device error, not as the state error the claim demands. -/
theorem setValue_nonoutput_counterexample :
    LineRequest.setValue true (devSetValue [] 3 false) = some ErrKind.deviceError ∧
    LineRequest.setValue true (devSetValue [] 3 false) ≠ some ErrKind.stateError := by
  exact ⟨rfl, by decide⟩

/-- C6 amended: `setValue` fails with a StateError exactly when the handle
is not live; an offset not configured as an output is rejected by the
device and reported as a DeviceError, like every other device failure,
and the call succeeds otherwise. -/
theorem setValue_error_classes (live : Bool) (outs : List Nat) (o : Nat)
    (ioFail : Bool) :
    (live = false → ∀ d, LineRequest.setValue live d = some ErrKind.stateError) ∧
    (live = true → o ∉ outs →
      LineRequest.setValue live (devSetValue outs o ioFail)
        = some ErrKind.deviceError) ∧
    (live = true → o ∈ outs → ioFail = true →
      LineRequest.setValue live (devSetValue outs o ioFail)
        = some ErrKind.deviceError) ∧
    (live = true → o ∈ outs → ioFail = false →
      LineRequest.setValue live (devSetValue outs o ioFail) = none) := by
  refine ⟨?_, ?_, ?_, ?_⟩
  · intro h d
    subst h
    simp [LineRequest.setValue]
  · intro h hm
    subst h
    simp [LineRequest.setValue, devSetValue, hm]
  · intro h hm hf
    subst h
    subst hf
    simp [LineRequest.setValue, devSetValue, hm]
  · intro h hm hf
    subst h
    subst hf
    simp [LineRequest.setValue, devSetValue, hm]

/-- C6 witness: the amended theorem applied to a dead handle and to a live
handle with an unconfigured offset. -/
theorem setValue_error_classes_witness :
    LineRequest.setValue false (devSetValue [2] 2 false) = some ErrKind.stateError ∧
    LineRequest.setValue true (devSetValue [] 3 false) = some ErrKind.deviceError :=
  ⟨(setValue_error_classes false [2] 2 false).1 rfl _,
   (setValue_error_classes true [] 3 false).2.1 rfl (by decide)⟩

/-- C2 counterexample: calling `watch` on a Line that is exported and
already Watching does not raise any error — in particular no state
error — and leaves a watcher running (a new loop was started after the
old one was stopped). -/
theorem watch_twice_counterexample :
    (Line.watch { exported := true, request? := some 0, watching := true }).2 = none ∧
    (Line.watch { exported := true, request? := some 0, watching := true }).2
      ≠ some ErrKind.stateError ∧
    (Line.watch { exported := true, request? := some 0, watching := true }).1.watching
      = true := by
  refine ⟨by decide, by decide, by decide⟩

/-- C2 amended: `watch` fails with a StateError exactly when the line is
not exported (no bound request); when the line is exported, `watch` never
fails on account of an existing watcher — it first stops any existing
watch thread and then starts a new one. -/
theorem line_watch_semantics (st : LineState) :
    ((st.exported = false ∨ st.request? = none) →
      Line.watch st = (st, some ErrKind.stateError)) ∧
    (st.exported = true → st.request? ≠ none →
      (Line.watch st).2 = none ∧
      (Line.watch st).1 = { Line.stopWatchThread st with watching := true }) := by
  constructor
  · intro h
    rcases h with h | h <;> simp [Line.watch, h]
  · intro he hr
    have : st.request?.isNone = false := by
      cases hq : st.request? with
      | none => exact absurd hq hr
      | some r => simp
    simp [Line.watch, he, this]

/-- C2 witness: the amended theorem applied to an unexported line and to
an exported, already-watching line. -/
theorem line_watch_semantics_witness :
    Line.watch { exported := false, request? := none, watching := false }
      = ({ exported := false, request? := none, watching := false }, some ErrKind.stateError) ∧
    (Line.watch { exported := true, request? := some 0, watching := true }).2 = none :=
  ⟨(line_watch_semantics _).1 (Or.inl rfl),
   ((line_watch_semantics _).2 rfl (by decide)).1⟩

/-- C10: re-exporting an already-exported Line unbinds the old request,
binds the new one and leaves the watch state unchanged (`Export` never
touches `watching_`), while `Unexport`, `Unwatch` and destruction do stop
the watch; `Unexport` and destruction unbind the request of an exported
line. -/
theorem export_rebinds_without_stopping_watch (st : LineState) (r : Nat) :
    (Line.exportReq st r).watching = st.watching ∧
    (Line.exportReq st r).request? = some r ∧
    (Line.exportReq st r).exported = true ∧
    (Line.unexport st).watching = false ∧
    (Line.unexport st).exported = false ∧
    (st.exported = true → (Line.unexport st).request? = none) ∧
    (Line.unwatch st).watching = false ∧
    (Line.destroy st).watching = false ∧
    (Line.destroy st).exported = false ∧
    (st.exported = true → (Line.destroy st).request? = none) := by
  obtain ⟨e, rq, w⟩ := st
  cases e <;> cases w <;>
    simp [Line.exportReq, Line.unexport, Line.unwatch, Line.destroy,
      Line.stopWatchThread]

/-- C10 witness: the theorem applied to an exported, watching line. -/
theorem export_rebinds_witness :
    (Line.exportReq { exported := true, request? := some 0, watching := true } 1).watching = true ∧
    (Line.unexport { exported := true, request? := some 0, watching := true }).request? = none :=
  ⟨(export_rebinds_without_stopping_watch
      { exported := true, request? := some 0, watching := true } 1).1,
   (export_rebinds_without_stopping_watch
      { exported := true, request? := some 0, watching := true } 1).2.2.2.2.2.1 rfl⟩

theorem ensure_find (st : ConfigState) :
    (∀ k, k ≠ st.currentOffset →
      mapFind (LineConfig.ensureSettingsForCurrentOffset st).1.settingsMap k
        = mapFind st.settingsMap k) ∧
    mapFind (LineConfig.ensureSettingsForCurrentOffset st).1.settingsMap
        st.currentOffset
      = some ((mapFind st.settingsMap st.currentOffset).getD
          LineSettings.defaults) ∧
    (LineConfig.ensureSettingsForCurrentOffset st).1.currentOffset
      = st.currentOffset := by
  rw [LineConfig.ensureSettingsForCurrentOffset]
  cases h : mapFind st.settingsMap st.currentOffset with
  | some s => simp [h]
  | none =>
      refine ⟨?_, ?_, rfl⟩
      · intro k hk
        simpa using mapFind_mapInsert_ne st.settingsMap st.currentOffset k
          LineSettings.defaults hk
      · simpa [h] using
          mapFind_mapInsert_self st.settingsMap st.currentOffset
            LineSettings.defaults

/-- C3 counterexample: `setDrive` with the unrecognized string
"sideways" on a fresh config raises a ValidationError but the settings
store is NOT left unchanged — a default-initialized entry for the current
offset (0) has been created. -/
theorem setter_invalid_string_counterexample :
    (LineConfig.setDrive ConfigState.init "sideways").2
      = some ErrKind.validationError ∧
    (LineConfig.setDrive ConfigState.init "sideways").1.settingsMap
      ≠ ConfigState.init.settingsMap ∧
    (LineConfig.setDrive ConfigState.init "sideways").1.settingsMap
      = [(0, LineSettings.defaults)] := by
  refine ⟨by decide, by decide, by decide⟩

/-- C3 amended: on an unrecognized enum string, each string-validated
setter (direction, edge, drive, bias) fails with a ValidationError and
leaves every existing settings entry unchanged, but it first ensures an
entry for the current offset, so a default-initialized entry is created
when none existed; the cursor is unchanged. -/
theorem setter_invalid_string_semantics (st : ConfigState) (s : String) :
    (LineConfig.parseDirection s = none →
      LineConfig.setDirection st s
        = ((LineConfig.ensureSettingsForCurrentOffset st).1,
            some ErrKind.validationError)) ∧
    (LineConfig.parseEdge s = none →
      LineConfig.setEdge st s
        = ((LineConfig.ensureSettingsForCurrentOffset st).1,
            some ErrKind.validationError)) ∧
    (LineConfig.parseDrive s = none →
      LineConfig.setDrive st s
        = ((LineConfig.ensureSettingsForCurrentOffset st).1,
            some ErrKind.validationError)) ∧
    (LineConfig.parseBias s = none →
      LineConfig.setBias st s
        = ((LineConfig.ensureSettingsForCurrentOffset st).1,
            some ErrKind.validationError)) ∧
    (∀ k, k ≠ st.currentOffset →
      mapFind (LineConfig.ensureSettingsForCurrentOffset st).1.settingsMap k
        = mapFind st.settingsMap k) ∧
    mapFind (LineConfig.ensureSettingsForCurrentOffset st).1.settingsMap
        st.currentOffset
      = some ((mapFind st.settingsMap st.currentOffset).getD
          LineSettings.defaults) ∧
    (LineConfig.ensureSettingsForCurrentOffset st).1.currentOffset
      = st.currentOffset := by
  obtain ⟨hne, hcur, hoff⟩ := ensure_find st
  refine ⟨?_, ?_, ?_, ?_, hne, hcur, hoff⟩
  · intro h; simp [LineConfig.setDirection, h]
  · intro h; simp [LineConfig.setEdge, h]
  · intro h; simp [LineConfig.setDrive, h]
  · intro h; simp [LineConfig.setBias, h]

/-- C3 witness: the amended theorem applied to a fresh config and the
string "sideways", which none of the four parsers accepts. -/
theorem setter_invalid_string_semantics_witness :
    LineConfig.setDrive ConfigState.init "sideways"
      = ((LineConfig.ensureSettingsForCurrentOffset ConfigState.init).1,
          some ErrKind.validationError) :=
  (setter_invalid_string_semantics ConfigState.init "sideways").2.2.1 (by decide)

/-- C9: calling `setOffset k` by itself on a fresh config creates a
default-initialized settings entry for `k`, so the store is non-empty; a
later build therefore takes the per-offset fallback-resolution branch
(the resolved list is `map (fun o => (o, resolveOne ...))`, not the
empty-store branch), and every requested offset resolves to `k`'s default
settings. -/
theorem select_offset_alone_populates_store (k : Nat) (offsets : List Nat) :
    (LineConfig.setOffset ConfigState.init k).settingsMap
      = [(k, LineSettings.defaults)] ∧
    (LineConfig.setOffset ConfigState.init k).settingsMap ≠ [] ∧
    mapFind (LineConfig.setOffset ConfigState.init k).settingsMap k
      = some LineSettings.defaults ∧
    resolveSettings (LineConfig.setOffset ConfigState.init k).settingsMap offsets
      = offsets.map
          (fun o =>
            (o, resolveOne
              (LineConfig.setOffset ConfigState.init k).settingsMap o)) ∧
    (∀ o, resolveOne (LineConfig.setOffset ConfigState.init k).settingsMap o
      = LineSettings.defaults) := by
  have hmap : (LineConfig.setOffset ConfigState.init k).settingsMap
      = [(k, LineSettings.defaults)] := by
    simp [LineConfig.setOffset, LineConfig.ensureSettingsForCurrentOffset,
      ConfigState.init, mapFind, mapInsert]
  refine ⟨hmap, by simp [hmap], by simp [hmap, mapFind], ?_, ?_⟩
  · rw [hmap, resolveSettings]
    simp
  · intro o
    rw [hmap, resolveOne]
    by_cases ho : o = k
    · simp [mapFind, ho]
    · by_cases h0 : (0 : Nat) = k
      · simp [mapFind, ho, h0]
      · simp [mapFind, ho, h0]

/-- C1 counterexample: configure offset 5 first (direction "output"),
then offset 2 (defaults only), and build for offset 7. Offset 7 has no
entry and offset 0 has none either, so the code falls back to
`settings_map.begin()->second` — the LOWEST-numbered entry, offset 2's
defaults — while the claim's first-configured policy (`resolveOneClaimed`,
insertion order [5, 2]) picks offset 5's settings, which differ. -/
theorem build_resolution_counterexample :
    (runConfig [ConfigOp.selOffset 5, ConfigOp.direction "output",
        ConfigOp.selOffset 2]).settingsMap
      = [(2, LineSettings.defaults),
         (5, { LineSettings.defaults with direction := GDirection.output })] ∧
    (runConfig [ConfigOp.selOffset 5, ConfigOp.direction "output",
        ConfigOp.selOffset 2]).insOrder = [5, 2] ∧
    resolveSettings
        (runConfig [ConfigOp.selOffset 5, ConfigOp.direction "output",
          ConfigOp.selOffset 2]).settingsMap [7]
      = [(7, LineSettings.defaults)] ∧
    resolveOneClaimed
        (runConfig [ConfigOp.selOffset 5, ConfigOp.direction "output",
          ConfigOp.selOffset 2]) 7
      = { LineSettings.defaults with direction := GDirection.output } ∧
    resolveSettings
        (runConfig [ConfigOp.selOffset 5, ConfigOp.direction "output",
          ConfigOp.selOffset 2]).settingsMap [7]
      ≠ [(7, resolveOneClaimed
            (runConfig [ConfigOp.selOffset 5, ConfigOp.direction "output",
              ConfigOp.selOffset 2]) 7)] := by
  refine ⟨by decide, by decide, by decide, by decide, by decide⟩

/-- C1 amended: for a build over any sequence of configuration calls,
if the store's mapping is empty every requested offset is resolved to
fully default settings; otherwise each offset, in request order, resolves
to its own explicit settings if present, else to offset 0's settings if
configured, else to the settings of the LOWEST-NUMBERED offset present in
the store's mapping (the `std::map` iterates in ascending offset order,
not configuration order). -/
theorem build_resolution (ops : List ConfigOp) (offsets : List Nat) :
    ((runConfig ops).settingsMap = [] →
      resolveSettings (runConfig ops).settingsMap offsets
        = offsets.map (fun o => (o, LineSettings.defaults))) ∧
    ((runConfig ops).settingsMap ≠ [] →
      resolveSettings (runConfig ops).settingsMap offsets
        = offsets.map (fun o => (o, resolveOne (runConfig ops).settingsMap o))) ∧
    (∀ o srec, mapFind (runConfig ops).settingsMap o = some srec →
      resolveOne (runConfig ops).settingsMap o = srec) ∧
    (∀ o s0, mapFind (runConfig ops).settingsMap o = none →
      mapFind (runConfig ops).settingsMap 0 = some s0 →
      resolveOne (runConfig ops).settingsMap o = s0) ∧
    (∀ o, mapFind (runConfig ops).settingsMap o = none →
      mapFind (runConfig ops).settingsMap 0 = none →
      (runConfig ops).settingsMap ≠ [] →
      ∃ k s, mapFind (runConfig ops).settingsMap k = some s ∧
        resolveOne (runConfig ops).settingsMap o = s ∧
        ∀ p ∈ (runConfig ops).settingsMap, k ≤ p.1) := by
  refine ⟨?_, ?_, ?_, ?_, ?_⟩
  · intro h
    simp [resolveSettings, h]
  · intro h
    rw [resolveSettings, if_neg]
    simp [List.isEmpty_iff, h]
  · intro o srec h
    simp [resolveOne, h]
  · intro o s0 h h0
    simp [resolveOne, h, h0]
  · intro o h h0 hne
    obtain ⟨pk, ps, t, hm⟩ :
        ∃ pk ps t, (runConfig ops).settingsMap = (pk, ps) :: t := by
      cases hmm : (runConfig ops).settingsMap with
      | nil => exact absurd hmm hne
      | cons a b => exact ⟨a.1, a.2, b, by simp [hmm]⟩
    have hs := runConfig_sorted ops
    rw [SortedMap, hm] at hs
    rw [hm] at h h0
    refine ⟨pk, ps, ?_, ?_, ?_⟩
    · simp [hm, mapFind]
    · simp [resolveOne, hm, h, h0]
    · intro q hq
      rw [hm] at hq
      rcases List.mem_cons.mp hq with hq | hq
      · simp [hq]
      · have := (List.pairwise_cons.mp hs).1 q hq
        simp at this ⊢
        omega

/-- C1 witness: the amended theorem applied to the empty trace (empty
store, all-defaults branch) and to the counterexample trace (non-empty
branch with the lowest-offset fallback). -/
theorem build_resolution_witness :
    resolveSettings (runConfig []).settingsMap [1, 2]
      = [(1, LineSettings.defaults), (2, LineSettings.defaults)] ∧
    ∃ k s, mapFind
        (runConfig [ConfigOp.selOffset 5, ConfigOp.direction "output",
          ConfigOp.selOffset 2]).settingsMap k = some s ∧
      resolveOne
        (runConfig [ConfigOp.selOffset 5, ConfigOp.direction "output",
          ConfigOp.selOffset 2]).settingsMap 7 = s ∧
      ∀ p ∈ (runConfig [ConfigOp.selOffset 5, ConfigOp.direction "output",
          ConfigOp.selOffset 2]).settingsMap, k ≤ p.1 := by
  constructor
  · simpa using (build_resolution [] [1, 2]).1 (by decide)
  · exact (build_resolution
      [ConfigOp.selOffset 5, ConfigOp.direction "output", ConfigOp.selOffset 2]
      [7]).2.2.2.2 7 (by decide) (by decide) (by decide)

theorem watchLoop_error (pre post : List DevOutcome) (m : String)
    (hpre : ∀ o ∈ pre, isRaise o = false) :
    watchLoop (pre ++ DevOutcome.raiseErr m :: post)
      = (eventDeliveries pre ++ [Delivery.errMsg m], false) := by
  induction pre with
  | nil => simp [watchLoop, eventDeliveries]
  | cons o rest ih =>
      have ho := hpre o (by simp)
      have hrest : ∀ x ∈ rest, isRaise x = false := fun x hx =>
        hpre x (by simp [hx])
      cases o with
      | timeout =>
          simp [watchLoop, eventDeliveries, List.filterMap_cons, ih hrest]
      | edge r =>
          have := ih hrest
          simp [watchLoop, eventDeliveries, List.filterMap_cons] at this ⊢
          simp [this]
      | raiseErr msg => simp [isRaise] at ho

theorem eventDeliveries_no_err (outs : List DevOutcome) :
    ∀ d ∈ eventDeliveries outs, isErrDelivery d = false := by
  intro d hd
  rw [eventDeliveries] at hd
  obtain ⟨o, ho, hmap⟩ := List.mem_filterMap.mp hd
  cases o with
  | timeout => simp at hmap
  | raiseErr msg => simp at hmap
  | edge r =>
      simp only [Option.some.injEq] at hmap
      rw [← hmap]
      rfl

/-- C4: if the device raises an error after any error-free prefix of
outcomes while the watcher is Watching, the loop delivers the events of
the prefix in order, then delivers the error exactly once (it is the last
delivery — the error count of the whole delivery list is 1), clears
`watching_` (self-stop), and delivers nothing for any outcome after the
error. -/
theorem watcher_error_delivered_once (pre post : List DevOutcome)
    (m : String) (hpre : ∀ o ∈ pre, isRaise o = false) :
    watchLoop (pre ++ DevOutcome.raiseErr m :: post)
      = (eventDeliveries pre ++ [Delivery.errMsg m], false) ∧
    (∀ d ∈ eventDeliveries pre, isErrDelivery d = false) ∧
    (watchLoop (pre ++ DevOutcome.raiseErr m :: post)).1.countP isErrDelivery
      = 1 := by
  have h1 := watchLoop_error pre post m hpre
  refine ⟨h1, eventDeliveries_no_err pre, ?_⟩
  have hz : (eventDeliveries pre).countP isErrDelivery = 0 := by
    rw [List.countP_eq_zero]
    intro a ha
    simp [eventDeliveries_no_err pre a ha]
  rw [h1]
  simp [List.countP_append, List.countP_cons, isErrDelivery, hz]

/-- C4 witness: the theorem applied to an error-free prefix of a timeout
and one rising edge, an error "boom", and a pending falling edge after
it: the rising edge and the error are delivered, the falling edge is
not, and the watcher has self-stopped. -/
theorem watcher_error_delivered_once_witness :
    watchLoop [DevOutcome.timeout, DevOutcome.edge true,
        DevOutcome.raiseErr "boom", DevOutcome.edge false]
      = ([Delivery.value 1, Delivery.errMsg "boom"], false) := by
  have h := watcher_error_delivered_once
    [DevOutcome.timeout, DevOutcome.edge true] [DevOutcome.edge false]
    "boom" (by decide)
  simpa [eventDeliveries] using h.1

/-- C5: in the interleaved model of `WatchThread` and `StopWatchThread`,
from any reachable state in which `StopWatchThread` has returned no step
can deliver an event or error callback (even if an edge event was pending
at the wait), and when stop took the flag-clearing path it returns only
through the join, i.e. after the watch thread has fully exited. -/
theorem stop_quiescence (s : WatchSys) (hr : WatchReach s) :
    (s.spc = SPC.returned →
      ∀ (l : WLabel) (s' : WatchSys), WStep s l s' → l ≠ WLabel.deliver) ∧
    (∀ (l : WLabel) (s' : WatchSys), WStep s l s' →
      s.spc = SPC.flagCleared → s'.spc = SPC.returned → s.wpc = WPC.doneW) := by
  obtain ⟨h1, h2, h3⟩ := WInv_reach hr
  constructor
  · intro hret l s' hstep
    obtain ⟨hw, hsafe⟩ := h2 hret
    cases hstep <;> simp_all [SafeW]
  · intro l s' hstep hfc hret
    cases hstep <;> simp_all

/-- C5 witness: the theorem applied to the concrete reachable state in
which the flag was cleared, the thread exited the loop and the stopper
joined and returned. -/
theorem stop_quiescence_witness :
    ((WatchSys.mk false WPC.doneW SPC.returned).spc = SPC.returned →
      ∀ (l : WLabel) (s' : WatchSys),
        WStep (WatchSys.mk false WPC.doneW SPC.returned) l s' →
        l ≠ WLabel.deliver) ∧
    (∀ (l : WLabel) (s' : WatchSys),
      WStep (WatchSys.mk false WPC.doneW SPC.returned) l s' →
      (WatchSys.mk false WPC.doneW SPC.returned).spc = SPC.flagCleared →
      s'.spc = SPC.returned →
      (WatchSys.mk false WPC.doneW SPC.returned).wpc = WPC.doneW) :=
  stop_quiescence (WatchSys.mk false WPC.doneW SPC.returned)
    (WatchReach.step
      (WatchReach.step
        (WatchReach.step WatchReach.init (WStep.stopFlag watchInit rfl rfl))
        (WStep.loopExit _ rfl rfl))
      (WStep.stopJoin _ rfl rfl))
